import Mathlib

/-!
Shallow embedding of `src/Meta_Forge_Generator.py` (Meta-Forge Generator v0.1.0).

The Python module works on dictionaries; we embed a `DomainSpec` as a structure
whose fields are `Option`-valued so that a missing dictionary key is `none`.
A dictionary lookup `d['k']` on a missing key raises `KeyError('k')` in Python;
here every fallible operation returns `Except PyError α`, where `PyError`
distinguishes the two kinds of exceptions the module can raise on its own:
`KeyError` from a plain subscript and `ConstitutionalViolation` from validation.
-/

/-- The two exception kinds raised by the planning core: a Python `KeyError`
carrying the missing key, and the module's own `ConstitutionalViolation`
carrying its message. -/
inductive PyError where
  | keyError (key : String)
  | constitutionalViolation (msg : String)
deriving Repr, DecidableEq

/-- Value of the `pattern` key of a domain spec (e.g. `{"name": ...}`);
only its presence matters to the module. -/
structure PatternSpec where
  name : Option String
deriving Repr, DecidableEq

/-- Value of the `context` key; `domain` is `none` when the inner dictionary
has no `'domain'` key. -/
structure ContextSpec where
  domain : Option String
deriving Repr, DecidableEq

/-- Value of the `constraints` key; each field is `none` when the inner
dictionary lacks the corresponding key. -/
structure ConstraintsSpec where
  hardware : Option String
  technical_capacity : Option String
deriving Repr, DecidableEq

/-- Value of the `customization_requests` key. -/
structure CustomizationRequests where
  wants_ai_nodes : Option Bool
deriving Repr, DecidableEq

/-- A domain specification dictionary: every top-level key the module ever
reads, `none` when the key is absent. -/
structure DomainSpec where
  pattern : Option PatternSpec
  context : Option ContextSpec
  constraints : Option ConstraintsSpec
  customization_requests : Option CustomizationRequests
  constitutional_requirements : Option (List String)
  success_metrics : Option (List String)
deriving Repr, DecidableEq

/-- `ForgeGenerationParameters` dataclass. `memory_limit` is `Option String`
because the Python field is initialized to `None` and only sometimes set. -/
structure ForgeGenerationParameters where
  architecture : String
  memory_limit : Option String
  enable_dain_generation : Bool
  constitutional_requirements : List String
  generation_warnings : List String
deriving Repr, DecidableEq

/-- One entry of `self.generation_log` (the dictionary appended in
`process_diagnostic_input`). -/
structure LogEntry where
  domain : String
  architecture : String
  dain_enabled : Bool
  warnings : List String
deriving Repr, DecidableEq

/-- The mutable state of a `MetaForgeGenerator` instance that the planning
core touches: the append-only `generation_log`. -/
structure MetaForgeGenerator where
  generation_log : List LogEntry
deriving Repr, DecidableEq

/-- The `forge_spec` dictionary returned by `generate_forge`. -/
structure ForgeSpec where
  domain : String
  generated_date : String
  architecture : String
  constitutional_compliance : String
  files_generated : List String
  success_metrics : List String
  warnings : List String
deriving Repr, DecidableEq

/-- `ConstitutionalKernel.validate_domain_spec` (lines 40-55): checks
`pattern`, `context`, `constraints` in order, then `hardware` inside
`constraints` (read with `.get('constraints', {})`), raising
`ConstitutionalViolation` on the first missing one, and returns `True`. -/
def validate_domain_spec (domain_spec : DomainSpec) : Except PyError Bool :=
  if domain_spec.pattern.isNone then
    .error (.constitutionalViolation "Missing required field: pattern")
  else if domain_spec.context.isNone then
    .error (.constitutionalViolation "Missing required field: context")
  else if domain_spec.constraints.isNone then
    .error (.constitutionalViolation "Missing required field: constraints")
  else if ((domain_spec.constraints.getD ⟨none, none⟩).hardware).isNone then
    .error (.constitutionalViolation "Hardware constraints required (Article 0)")
  else
    .ok true

/-- `MetaForgeGenerator._calculate_memory_limit` (lines 118-124): the
per-hardware limits dictionary with `'1G'` as `.get` fallback. -/
def calculate_memory_limit (hardware_profile : String) : String :=
  if hardware_profile = "raspberry_pi" then "3G"
  else if hardware_profile = "desktop" then "6G"
  else "1G"

/-- Line 77: `diagnostic_input.get('customization_requests', {}).get('wants_ai_nodes', False)`;
never raises. -/
def wants_ai_nodes_of (diagnostic_input : DomainSpec) : Bool :=
  match diagnostic_input.customization_requests with
  | some cr => cr.wants_ai_nodes.getD false
  | none => false

/-- `MetaForgeGenerator.process_diagnostic_input` (lines 67-116): reads
`constraints.hardware` and `constraints.technical_capacity` unconditionally
(plain subscripts, so `KeyError` when absent), runs the hardware-aware
decision ladder, then appends one log entry — whose `domain` field reads
`diagnostic_input['context']['domain']`, again a plain subscript — and
returns the parameters together with the updated generator state. -/
def process_diagnostic_input (g : MetaForgeGenerator) (diagnostic_input : DomainSpec) :
    Except PyError (MetaForgeGenerator × ForgeGenerationParameters) :=
  match diagnostic_input.constraints with
  | none => .error (.keyError "constraints")
  | some cs =>
    match cs.hardware with
    | none => .error (.keyError "hardware")
    | some hardware =>
      match cs.technical_capacity with
      | none => .error (.keyError "technical_capacity")
      | some tech_capacity =>
        let wants_ai := wants_ai_nodes_of diagnostic_input
        let params0 : ForgeGenerationParameters :=
          { architecture := "two_node"
            memory_limit := none
            enable_dain_generation := false
            constitutional_requirements := diagnostic_input.constitutional_requirements.getD []
            generation_warnings := [] }
        let params :=
          if hardware = "raspberry_pi" ∨ hardware = "desktop" then
            { params0 with
                architecture := "two_node"
                memory_limit := some (calculate_memory_limit hardware)
                generation_warnings :=
                  if wants_ai then
                    ["DAIN generation disabled: Requires dedicated hardware for constitutional compliance"]
                  else [] }
          else if (hardware = "dedicated" ∨ hardware = "cloud") ∧
              tech_capacity = "advanced" ∧ wants_ai = true then
            { params0 with
                architecture := "decoupled_dain"
                enable_dain_generation := true
                memory_limit := some (if hardware = "dedicated" then "4G" else "8G") }
          else if hardware = "dedicated" ∨ hardware = "cloud" then
            { params0 with
                architecture := "decoupled_non_dain"
                generation_warnings :=
                  if wants_ai then
                    ["DAIN generation disabled: Requires advanced technical capacity"]
                  else [] }
          else params0
        match diagnostic_input.context with
        | none => .error (.keyError "context")
        | some ctx =>
          match ctx.domain with
          | none => .error (.keyError "domain")
          | some dom =>
            .ok ({ generation_log := g.generation_log ++
                    [{ domain := dom
                       architecture := params.architecture
                       dain_enabled := params.enable_dain_generation
                       warnings := params.generation_warnings }] },
                 params)

/-- `MetaForgeGenerator._generate_forge_files` (lines 153-169): builds the
five base artifact descriptors from `domain_spec['context']['domain']` and
appends two more when the architecture is `decoupled_dain`. -/
def generate_forge_files (domain_spec : DomainSpec) (params : ForgeGenerationParameters) :
    Except PyError (List String) :=
  match domain_spec.context with
  | none => .error (.keyError "context")
  | some ctx =>
    match ctx.domain with
    | none => .error (.keyError "domain")
    | some domain_name =>
      let files :=
        [domain_name ++ "/kernel.yml -> Constitutional kernel (git submodule)",
         domain_name ++ "/domain_config.json -> Domain-specific configuration",
         domain_name ++ "/docker-compose.yml -> Deployment configuration",
         domain_name ++ "/constitutional_linter.py -> Rule enforcement system",
         domain_name ++ "/README.md -> Usage instructions"]
      .ok (if params.architecture = "decoupled_dain" then
        files ++
          [domain_name ++ "/docker-compose.dain.yml -> AI node deployment",
           domain_name ++ "/dain_c_agent.py -> Constitutional audit AI"]
      else files)

/-- A fresh generator with an empty generation log. -/
def g0 : MetaForgeGenerator := ⟨[]⟩

/-- The fully-populated demonstration spec from the module's `__main__` block
(the Skyrim example, lines 189-194). -/
def specFull : DomainSpec :=
  { pattern := some ⟨some "compatibility_management"⟩
    context := some ⟨some "skyrim_modding_ecosystem"⟩
    constraints := some ⟨some "desktop", some "basic"⟩
    customization_requests := some ⟨some false⟩
    constitutional_requirements := none
    success_metrics := none }

/-- `specFull` with the `context` key deleted. -/
def specNoContext : DomainSpec := { specFull with context := none }

/-- `specFull` with the `pattern` key deleted. -/
def specNoPattern : DomainSpec := { specFull with pattern := none }

/-- `specFull` with the `technical_capacity` key deleted from `constraints`;
still passes `validate_domain_spec`. -/
def specNoTech : DomainSpec := { specFull with constraints := some ⟨some "desktop", none⟩ }

/-- `specFull` but requesting AI nodes on desktop hardware. -/
def specDesktopAI : DomainSpec := { specFull with customization_requests := some ⟨some true⟩ }

/-- Dedicated hardware, advanced capacity, AI nodes requested. -/
def specDedicatedAdvAI : DomainSpec :=
  { specFull with
      constraints := some ⟨some "dedicated", some "advanced"⟩
      customization_requests := some ⟨some true⟩ }

/-- Dedicated hardware, basic capacity, AI nodes requested. -/
def specDedicatedBasicAI : DomainSpec :=
  { specFull with
      constraints := some ⟨some "dedicated", some "basic"⟩
      customization_requests := some ⟨some true⟩ }

/-- A spec whose hardware value is outside the known enumeration. -/
def specUnknownHw : DomainSpec :=
  { specFull with constraints := some ⟨some "mainframe", some "basic"⟩ }

/-- `MetaForgeGenerator.generate_forge` (lines 126-151). The very first
statement (line 131) interpolates `domain_spec['context']['domain']` into a
log line, so those two subscripts run, and can raise `KeyError`, before
`validate_domain_spec` is ever called; then validation, planning and file
generation run in order and the `forge_spec` dictionary is assembled. -/
def generate_forge (g : MetaForgeGenerator) (domain_spec : DomainSpec) :
    Except PyError (MetaForgeGenerator × ForgeSpec) :=
  match domain_spec.context with
  | none => .error (.keyError "context")
  | some ctx =>
    match ctx.domain with
    | none => .error (.keyError "domain")
    | some dom =>
      match validate_domain_spec domain_spec with
      | .error e => .error e
      | .ok _ =>
        match process_diagnostic_input g domain_spec with
        | .error e => .error e
        | .ok (g', params) =>
          match generate_forge_files domain_spec params with
          | .error e => .error e
          | .ok files =>
            .ok (g', { domain := dom
                       generated_date := "2024-01-15"
                       architecture := params.architecture
                       constitutional_compliance := "verified"
                       files_generated := files
                       success_metrics := domain_spec.success_metrics.getD []
                       warnings := params.generation_warnings })

theorem validate_missing_pattern (s : DomainSpec) (h : s.pattern = none) :
    validate_domain_spec s = .error (.constitutionalViolation "Missing required field: pattern") := by
  simp [validate_domain_spec, h]

theorem validate_missing_context (s : DomainSpec) (hp : s.pattern.isSome)
    (h : s.context = none) :
    validate_domain_spec s = .error (.constitutionalViolation "Missing required field: context") := by
  obtain ⟨p, hp⟩ := Option.isSome_iff_exists.mp hp
  simp [validate_domain_spec, hp, h]

theorem validate_missing_constraints (s : DomainSpec) (hp : s.pattern.isSome)
    (hc : s.context.isSome) (h : s.constraints = none) :
    validate_domain_spec s =
      .error (.constitutionalViolation "Missing required field: constraints") := by
  obtain ⟨p, hp⟩ := Option.isSome_iff_exists.mp hp
  obtain ⟨c, hc⟩ := Option.isSome_iff_exists.mp hc
  simp [validate_domain_spec, hp, hc, h]

theorem validate_missing_hardware (s : DomainSpec) (cs : ConstraintsSpec)
    (hp : s.pattern.isSome) (hc : s.context.isSome) (hcs : s.constraints = some cs)
    (h : cs.hardware = none) :
    validate_domain_spec s =
      .error (.constitutionalViolation "Hardware constraints required (Article 0)") := by
  obtain ⟨p, hp⟩ := Option.isSome_iff_exists.mp hp
  obtain ⟨c, hc⟩ := Option.isSome_iff_exists.mp hc
  simp [validate_domain_spec, hp, hc, hcs, h]

theorem validate_ok_iff (s : DomainSpec) :
    validate_domain_spec s = .ok true ↔
      (s.pattern.isSome ∧ s.context.isSome ∧
        ∃ cs, s.constraints = some cs ∧ cs.hardware.isSome) := by
  obtain ⟨p, c, cso, cr, reqs, sm⟩ := s
  rcases cso with _ | ⟨hw, tc⟩
  · cases p <;> cases c <;> simp [validate_domain_spec]
  · cases p <;> cases c <;> cases hw <;> simp [validate_domain_spec]

/-- C2: `validate_domain_spec` succeeds (returning `True`) iff `pattern`,
`context`, `constraints` and `constraints.hardware` are all present; when a
field is absent it raises `ConstitutionalViolation` with the message naming
that field, checking in the order pattern, context, constraints, hardware
and short-circuiting on the first missing one. -/
theorem validate_domain_spec_ordered_correct (s : DomainSpec) :
    (validate_domain_spec s = .ok true ↔
      (s.pattern.isSome ∧ s.context.isSome ∧
        ∃ cs, s.constraints = some cs ∧ cs.hardware.isSome))
    ∧ (s.pattern = none →
        validate_domain_spec s =
          .error (.constitutionalViolation "Missing required field: pattern"))
    ∧ (s.pattern.isSome → s.context = none →
        validate_domain_spec s =
          .error (.constitutionalViolation "Missing required field: context"))
    ∧ (s.pattern.isSome → s.context.isSome → s.constraints = none →
        validate_domain_spec s =
          .error (.constitutionalViolation "Missing required field: constraints"))
    ∧ (∀ cs, s.pattern.isSome → s.context.isSome → s.constraints = some cs →
        cs.hardware = none →
        validate_domain_spec s =
          .error (.constitutionalViolation "Hardware constraints required (Article 0)")) :=
  ⟨validate_ok_iff s,
   fun h => validate_missing_pattern s h,
   fun hp h => validate_missing_context s hp h,
   fun hp hc h => validate_missing_constraints s hp hc h,
   fun cs hp hc hcs h => validate_missing_hardware s cs hp hc hcs h⟩

theorem validate_domain_spec_ordered_correct_witness :
    validate_domain_spec specNoPattern =
      .error (.constitutionalViolation "Missing required field: pattern") :=
  (validate_domain_spec_ordered_correct specNoPattern).2.1 rfl

/-- C1 counterexample: on a DomainSpec whose `context` key is missing,
`generate_forge` raises `KeyError('context')` from the logging line at the
top of the function, before validation is reached — not the
`ConstitutionalViolation` the claim requires for every missing-field spec. -/
theorem generate_forge_missing_context_keyerror :
    generate_forge g0 specNoContext = .error (.keyError "context") ∧
    PyError.keyError "context" ≠
      PyError.constitutionalViolation "Missing required field: context" :=
  ⟨rfl, by decide⟩

/-- C1 (amended): for every DomainSpec that does carry `context` with a
`domain` key but is missing `pattern`, `constraints`, or
`constraints.hardware`, `generate_forge` fails with a
`ConstitutionalViolation` propagated from validation. -/
theorem generate_forge_propagates_violation (g : MetaForgeGenerator) (s : DomainSpec)
    (c : ContextSpec) (dm : String)
    (hc : s.context = some c) (hd : c.domain = some dm)
    (hmiss : s.pattern = none ∨ s.constraints = none ∨
      ∃ cs, s.constraints = some cs ∧ cs.hardware = none) :
    ∃ m, generate_forge g s = .error (.constitutionalViolation m) := by
  have hval : ∃ m, validate_domain_spec s = .error (.constitutionalViolation m) := by
    rcases hmiss with h | h | ⟨cs, hcs, hhw⟩
    · exact ⟨_, validate_missing_pattern s h⟩
    · cases hp : s.pattern with
      | none => exact ⟨_, validate_missing_pattern s hp⟩
      | some p =>
        exact ⟨_, validate_missing_constraints s (by simp [hp]) (by simp [hc]) h⟩
    · cases hp : s.pattern with
      | none => exact ⟨_, validate_missing_pattern s hp⟩
      | some p =>
        exact ⟨_, validate_missing_hardware s cs (by simp [hp]) (by simp [hc]) hcs hhw⟩
  obtain ⟨m, hm⟩ := hval
  exact ⟨m, by simp [generate_forge, hc, hd, hm]⟩

theorem generate_forge_propagates_violation_witness :
    ∃ m, generate_forge g0 specNoPattern = .error (.constitutionalViolation m) :=
  generate_forge_propagates_violation g0 specNoPattern
    ⟨some "skyrim_modding_ecosystem"⟩ "skyrim_modding_ecosystem" rfl rfl (Or.inl rfl)

/-- C3: a DomainSpec that passes validation but lacks
`constraints.technical_capacity` makes `process_diagnostic_input` raise
`KeyError('technical_capacity')` — the key is read unconditionally before
the decision ladder — and therefore makes `generate_forge` fail with a
`KeyError` as well, never a `ConstitutionalViolation`. -/
theorem process_missing_tech_capacity_keyerror (g : MetaForgeGenerator) (s : DomainSpec)
    (cs : ConstraintsSpec) (hv : validate_domain_spec s = .ok true)
    (hcs : s.constraints = some cs) (ht : cs.technical_capacity = none) :
    process_diagnostic_input g s = .error (.keyError "technical_capacity") ∧
    ∃ k, generate_forge g s = .error (.keyError k) := by
  obtain ⟨hp, hcex, cs', hcs', hhw'⟩ := (validate_ok_iff s).mp hv
  rw [hcs] at hcs'
  injection hcs' with hcseq
  subst hcseq
  obtain ⟨hw, hhw⟩ := Option.isSome_iff_exists.mp hhw'
  obtain ⟨c, hc⟩ := Option.isSome_iff_exists.mp hcex
  have hproc : process_diagnostic_input g s = .error (.keyError "technical_capacity") := by
    simp [process_diagnostic_input, hcs, hhw, ht]
  refine ⟨hproc, ?_⟩
  cases hd : c.domain with
  | none => exact ⟨"domain", by simp [generate_forge, hc, hd]⟩
  | some dm => exact ⟨"technical_capacity", by simp [generate_forge, hc, hd, hv, hproc]⟩

theorem process_missing_tech_capacity_keyerror_witness :
    process_diagnostic_input g0 specNoTech = .error (.keyError "technical_capacity") ∧
    ∃ k, generate_forge g0 specNoTech = .error (.keyError k) :=
  process_missing_tech_capacity_keyerror g0 specNoTech ⟨some "desktop", none⟩ rfl rfl rfl

/-- C4: dedicated or cloud hardware with advanced capacity and AI nodes
requested selects the `decoupled_dain` architecture with DAIN generation
enabled, memory limit `"4G"` on dedicated and `"8G"` on cloud, and no
warnings (and logs exactly that outcome). -/
theorem process_dain_branch (g : MetaForgeGenerator) (s : DomainSpec)
    (cs : ConstraintsSpec) (c : ContextSpec) (dm h : String)
    (hcs : s.constraints = some cs) (hhw : cs.hardware = some h)
    (hh : h = "dedicated" ∨ h = "cloud")
    (htc : cs.technical_capacity = some "advanced")
    (hai : wants_ai_nodes_of s = true)
    (hc : s.context = some c) (hd : c.domain = some dm) :
    process_diagnostic_input g s = .ok
      ({ generation_log := g.generation_log ++
          [{ domain := dm
             architecture := "decoupled_dain"
             dain_enabled := true
             warnings := [] }] },
       { architecture := "decoupled_dain"
         memory_limit := some (if h = "dedicated" then "4G" else "8G")
         enable_dain_generation := true
         constitutional_requirements := s.constitutional_requirements.getD []
         generation_warnings := [] }) := by
  rcases hh with rfl | rfl <;>
    simp [process_diagnostic_input, hcs, hhw, htc, hai, hc, hd]

theorem process_dain_branch_witness :
    process_diagnostic_input g0 specDedicatedAdvAI = .ok
      ({ generation_log :=
          [{ domain := "skyrim_modding_ecosystem"
             architecture := "decoupled_dain"
             dain_enabled := true
             warnings := [] }] },
       { architecture := "decoupled_dain"
         memory_limit := some "4G"
         enable_dain_generation := true
         constitutional_requirements := []
         generation_warnings := [] }) :=
  process_dain_branch g0 specDedicatedAdvAI ⟨some "dedicated", some "advanced"⟩
    ⟨some "skyrim_modding_ecosystem"⟩ "skyrim_modding_ecosystem" "dedicated"
    rfl rfl (Or.inl rfl) rfl rfl rfl rfl

/-- C5 counterexample: on desktop hardware with AI nodes requested, the
warning actually produced is
"DAIN generation disabled: Requires dedicated hardware for constitutional compliance",
which is not the string
"DAIN generation disabled: requires dedicated hardware" that the claim
states. -/
theorem process_desktop_ai_warning_string :
    process_diagnostic_input g0 specDesktopAI = .ok
      ({ generation_log :=
          [{ domain := "skyrim_modding_ecosystem"
             architecture := "two_node"
             dain_enabled := false
             warnings :=
               ["DAIN generation disabled: Requires dedicated hardware for constitutional compliance"] }] },
       { architecture := "two_node"
         memory_limit := some "6G"
         enable_dain_generation := false
         constitutional_requirements := []
         generation_warnings :=
           ["DAIN generation disabled: Requires dedicated hardware for constitutional compliance"] }) ∧
    "DAIN generation disabled: Requires dedicated hardware for constitutional compliance" ≠
      "DAIN generation disabled: requires dedicated hardware" :=
  ⟨rfl, by decide⟩

/-- C5 (amended): raspberry_pi or desktop hardware selects `two_node` with
DAIN disabled, memory limit from the per-hardware table
(`raspberry_pi → "3G"`, `desktop → "6G"`, anything else → `"1G"`), and,
exactly when AI nodes are requested, the single warning
"DAIN generation disabled: Requires dedicated hardware for constitutional compliance". -/
theorem process_two_node_branch (g : MetaForgeGenerator) (s : DomainSpec)
    (cs : ConstraintsSpec) (c : ContextSpec) (dm h tc : String)
    (hcs : s.constraints = some cs) (hhw : cs.hardware = some h)
    (hh : h = "raspberry_pi" ∨ h = "desktop")
    (htc : cs.technical_capacity = some tc)
    (hc : s.context = some c) (hd : c.domain = some dm) :
    (process_diagnostic_input g s = .ok
      ({ generation_log := g.generation_log ++
          [{ domain := dm
             architecture := "two_node"
             dain_enabled := false
             warnings :=
               if wants_ai_nodes_of s then
                 ["DAIN generation disabled: Requires dedicated hardware for constitutional compliance"]
               else [] }] },
       { architecture := "two_node"
         memory_limit := some (calculate_memory_limit h)
         enable_dain_generation := false
         constitutional_requirements := s.constitutional_requirements.getD []
         generation_warnings :=
           if wants_ai_nodes_of s then
             ["DAIN generation disabled: Requires dedicated hardware for constitutional compliance"]
           else [] }))
    ∧ calculate_memory_limit "raspberry_pi" = "3G"
    ∧ calculate_memory_limit "desktop" = "6G"
    ∧ (∀ x, x ≠ "raspberry_pi" → x ≠ "desktop" → calculate_memory_limit x = "1G") := by
  refine ⟨?_, rfl, rfl, fun x h1 h2 => by simp [calculate_memory_limit, h1, h2]⟩
  rcases hh with rfl | rfl <;>
    simp [process_diagnostic_input, hcs, hhw, htc, hc, hd]

theorem process_two_node_branch_witness :
    process_diagnostic_input g0 specDesktopAI = .ok
      ({ generation_log :=
          [{ domain := "skyrim_modding_ecosystem"
             architecture := "two_node"
             dain_enabled := false
             warnings :=
               ["DAIN generation disabled: Requires dedicated hardware for constitutional compliance"] }] },
       { architecture := "two_node"
         memory_limit := some "6G"
         enable_dain_generation := false
         constitutional_requirements := []
         generation_warnings :=
           ["DAIN generation disabled: Requires dedicated hardware for constitutional compliance"] }) :=
  (process_two_node_branch g0 specDesktopAI ⟨some "desktop", some "basic"⟩
    ⟨some "skyrim_modding_ecosystem"⟩ "skyrim_modding_ecosystem" "desktop" "basic"
    rfl rfl (Or.inr rfl) rfl rfl rfl).1

/-- C6 counterexample: on dedicated hardware with basic capacity and AI
nodes requested, the warning actually produced is
"DAIN generation disabled: Requires advanced technical capacity", which is
not the string "DAIN generation disabled: requires advanced technical
capacity" that the claim states. -/
theorem process_dedicated_basic_warning_string :
    process_diagnostic_input g0 specDedicatedBasicAI = .ok
      ({ generation_log :=
          [{ domain := "skyrim_modding_ecosystem"
             architecture := "decoupled_non_dain"
             dain_enabled := false
             warnings := ["DAIN generation disabled: Requires advanced technical capacity"] }] },
       { architecture := "decoupled_non_dain"
         memory_limit := none
         enable_dain_generation := false
         constitutional_requirements := []
         generation_warnings :=
           ["DAIN generation disabled: Requires advanced technical capacity"] }) ∧
    "DAIN generation disabled: Requires advanced technical capacity" ≠
      "DAIN generation disabled: requires advanced technical capacity" :=
  ⟨rfl, by decide⟩

/-- C6 (amended): dedicated or cloud hardware that misses the DAIN
conditions selects `decoupled_non_dain` with no memory limit, DAIN disabled
and, exactly when AI nodes are requested, the single warning
"DAIN generation disabled: Requires advanced technical capacity". -/
theorem process_non_dain_branch (g : MetaForgeGenerator) (s : DomainSpec)
    (cs : ConstraintsSpec) (c : ContextSpec) (dm h tc : String)
    (hcs : s.constraints = some cs) (hhw : cs.hardware = some h)
    (hh : h = "dedicated" ∨ h = "cloud")
    (htc : cs.technical_capacity = some tc)
    (hnot : ¬(tc = "advanced" ∧ wants_ai_nodes_of s = true))
    (hc : s.context = some c) (hd : c.domain = some dm) :
    process_diagnostic_input g s = .ok
      ({ generation_log := g.generation_log ++
          [{ domain := dm
             architecture := "decoupled_non_dain"
             dain_enabled := false
             warnings :=
               if wants_ai_nodes_of s then
                 ["DAIN generation disabled: Requires advanced technical capacity"]
               else [] }] },
       { architecture := "decoupled_non_dain"
         memory_limit := none
         enable_dain_generation := false
         constitutional_requirements := s.constitutional_requirements.getD []
         generation_warnings :=
           if wants_ai_nodes_of s then
             ["DAIN generation disabled: Requires advanced technical capacity"]
           else [] }) := by
  rcases hh with rfl | rfl <;>
    simp [process_diagnostic_input, hcs, hhw, htc, hc, hd, hnot]

theorem process_non_dain_branch_witness :
    process_diagnostic_input g0 specDedicatedBasicAI = .ok
      ({ generation_log :=
          [{ domain := "skyrim_modding_ecosystem"
             architecture := "decoupled_non_dain"
             dain_enabled := false
             warnings := ["DAIN generation disabled: Requires advanced technical capacity"] }] },
       { architecture := "decoupled_non_dain"
         memory_limit := none
         enable_dain_generation := false
         constitutional_requirements := []
         generation_warnings :=
           ["DAIN generation disabled: Requires advanced technical capacity"] }) :=
  process_non_dain_branch g0 specDedicatedBasicAI ⟨some "dedicated", some "basic"⟩
    ⟨some "skyrim_modding_ecosystem"⟩ "skyrim_modding_ecosystem" "dedicated" "basic"
    rfl rfl (Or.inl rfl) rfl (by decide) rfl rfl

/-- C7: a hardware value outside the four known ones falls through every
branch of the ladder: `process_diagnostic_input` silently returns the
conservative default — `two_node`, no memory limit, DAIN disabled, no
warnings — whatever the technical capacity and AI request are. -/
theorem process_unknown_hardware_default (g : MetaForgeGenerator) (s : DomainSpec)
    (cs : ConstraintsSpec) (c : ContextSpec) (dm h tc : String)
    (hcs : s.constraints = some cs) (hhw : cs.hardware = some h)
    (h1 : h ≠ "raspberry_pi") (h2 : h ≠ "desktop") (h3 : h ≠ "dedicated") (h4 : h ≠ "cloud")
    (htc : cs.technical_capacity = some tc)
    (hc : s.context = some c) (hd : c.domain = some dm) :
    process_diagnostic_input g s = .ok
      ({ generation_log := g.generation_log ++
          [{ domain := dm
             architecture := "two_node"
             dain_enabled := false
             warnings := [] }] },
       { architecture := "two_node"
         memory_limit := none
         enable_dain_generation := false
         constitutional_requirements := s.constitutional_requirements.getD []
         generation_warnings := [] }) := by
  simp [process_diagnostic_input, hcs, hhw, htc, hc, hd, h1, h2, h3, h4]

theorem process_unknown_hardware_default_witness :
    process_diagnostic_input g0 specUnknownHw = .ok
      ({ generation_log :=
          [{ domain := "skyrim_modding_ecosystem"
             architecture := "two_node"
             dain_enabled := false
             warnings := [] }] },
       { architecture := "two_node"
         memory_limit := none
         enable_dain_generation := false
         constitutional_requirements := []
         generation_warnings := [] }) :=
  process_unknown_hardware_default g0 specUnknownHw ⟨some "mainframe", some "basic"⟩
    ⟨some "skyrim_modding_ecosystem"⟩ "skyrim_modding_ecosystem" "mainframe" "basic"
    rfl rfl (by decide) (by decide) (by decide) (by decide) rfl rfl rfl

/-- C8: the artifact list depends only on the domain name and the
architecture; every entry is the domain name followed by a path suffix;
any architecture other than `decoupled_dain` yields exactly the 5 base
descriptors, while `decoupled_dain` yields 7 whose first 5 are that same
base list. -/
theorem generate_forge_files_shape (d : DomainSpec) (params : ForgeGenerationParameters)
    (c : ContextSpec) (dm : String)
    (hc : d.context = some c) (hd : c.domain = some dm) :
    (∀ d₂ c₂ p₂, d₂.context = some c₂ → c₂.domain = some dm →
      p₂.architecture = params.architecture →
      generate_forge_files d₂ p₂ = generate_forge_files d params)
    ∧ ∃ l, generate_forge_files d params = .ok l
        ∧ (∀ e ∈ l, ∃ t, e = dm ++ t)
        ∧ (params.architecture ≠ "decoupled_dain" →
            l = [dm ++ "/kernel.yml -> Constitutional kernel (git submodule)",
                 dm ++ "/domain_config.json -> Domain-specific configuration",
                 dm ++ "/docker-compose.yml -> Deployment configuration",
                 dm ++ "/constitutional_linter.py -> Rule enforcement system",
                 dm ++ "/README.md -> Usage instructions"] ∧ l.length = 5)
        ∧ (params.architecture = "decoupled_dain" →
            l.length = 7 ∧
            l.take 5 = [dm ++ "/kernel.yml -> Constitutional kernel (git submodule)",
                 dm ++ "/domain_config.json -> Domain-specific configuration",
                 dm ++ "/docker-compose.yml -> Deployment configuration",
                 dm ++ "/constitutional_linter.py -> Rule enforcement system",
                 dm ++ "/README.md -> Usage instructions"]) := by
  constructor
  · intro d₂ c₂ p₂ hc₂ hd₂ hp₂
    simp [generate_forge_files, hc, hd, hc₂, hd₂, hp₂]
  · by_cases harch : params.architecture = "decoupled_dain"
    · refine ⟨[dm ++ "/kernel.yml -> Constitutional kernel (git submodule)",
          dm ++ "/domain_config.json -> Domain-specific configuration",
          dm ++ "/docker-compose.yml -> Deployment configuration",
          dm ++ "/constitutional_linter.py -> Rule enforcement system",
          dm ++ "/README.md -> Usage instructions",
          dm ++ "/docker-compose.dain.yml -> AI node deployment",
          dm ++ "/dain_c_agent.py -> Constitutional audit AI"],
        by simp [generate_forge_files, hc, hd, harch], ?_,
        fun hne => absurd harch hne, fun _ => ⟨rfl, rfl⟩⟩
      intro e he
      simp only [List.mem_cons, List.not_mem_nil, or_false] at he
      rcases he with rfl | rfl | rfl | rfl | rfl | rfl | rfl <;> exact ⟨_, rfl⟩
    · refine ⟨[dm ++ "/kernel.yml -> Constitutional kernel (git submodule)",
          dm ++ "/domain_config.json -> Domain-specific configuration",
          dm ++ "/docker-compose.yml -> Deployment configuration",
          dm ++ "/constitutional_linter.py -> Rule enforcement system",
          dm ++ "/README.md -> Usage instructions"],
        by simp [generate_forge_files, hc, hd, harch], ?_,
        fun _ => ⟨rfl, rfl⟩, fun heq => absurd heq harch⟩
      intro e he
      simp only [List.mem_cons, List.not_mem_nil, or_false] at he
      rcases he with rfl | rfl | rfl | rfl | rfl <;> exact ⟨_, rfl⟩

theorem generate_forge_files_shape_witness :
    ∃ l, generate_forge_files specFull
        { architecture := "two_node"
          memory_limit := some "6G"
          enable_dain_generation := false
          constitutional_requirements := []
          generation_warnings := [] } = .ok l ∧ l.length = 5 := by
  obtain ⟨-, l, hok, -, hbase, -⟩ :=
    generate_forge_files_shape specFull
      { architecture := "two_node"
        memory_limit := some "6G"
        enable_dain_generation := false
        constitutional_requirements := []
        generation_warnings := [] }
      ⟨some "skyrim_modding_ecosystem"⟩ "skyrim_modding_ecosystem" rfl rfl
  exact ⟨l, hok, (hbase (by decide)).2⟩

theorem process_log_append (g g' : MetaForgeGenerator) (s : DomainSpec)
    (p : ForgeGenerationParameters)
    (h : process_diagnostic_input g s = .ok (g', p)) :
    ∃ dm, g'.generation_log = g.generation_log ++
      [{ domain := dm
         architecture := p.architecture
         dain_enabled := p.enable_dain_generation
         warnings := p.generation_warnings }] := by
  simp only [process_diagnostic_input] at h
  repeat' split at h
  all_goals simp only [Except.ok.injEq, Prod.mk.injEq, reduceCtorEq] at h
  all_goals obtain ⟨hg, hp⟩ := h
  all_goals subst hp
  all_goals exact ⟨_, by rw [← hg]⟩

/-- C9: every successful `process_diagnostic_input` call appends exactly
one entry `{domain, architecture, dain_enabled, warnings}` to the
generation log, leaving the previous entries untouched as a proper initial
segment; a successful `generate_forge` call does the same, so after n calls
the log has exactly n entries in call order. -/
theorem generation_log_grows_by_one (g g' : MetaForgeGenerator) (s : DomainSpec)
    (p : ForgeGenerationParameters) :
    (process_diagnostic_input g s = .ok (g', p) →
      ∃ dm, g'.generation_log = g.generation_log ++
        [{ domain := dm
           architecture := p.architecture
           dain_enabled := p.enable_dain_generation
           warnings := p.generation_warnings }] ∧
        g'.generation_log.length = g.generation_log.length + 1)
    ∧ (∀ r : ForgeSpec, generate_forge g s = .ok (g', r) →
        ∃ e, g'.generation_log = g.generation_log ++ [e] ∧
          g'.generation_log.length = g.generation_log.length + 1) := by
  constructor
  · intro h
    obtain ⟨dm, hdm⟩ := process_log_append g g' s p h
    exact ⟨dm, hdm, by simp [hdm]⟩
  · intro r h
    cases hctx : s.context with
    | none => simp [generate_forge, hctx] at h
    | some ctx =>
    cases hdom : ctx.domain with
    | none => simp [generate_forge, hctx, hdom] at h
    | some dm =>
    cases hval : validate_domain_spec s with
    | error e => simp [generate_forge, hctx, hdom, hval] at h
    | ok b =>
    cases hproc : process_diagnostic_input g s with
    | error e => simp [generate_forge, hctx, hdom, hval, hproc] at h
    | ok pr =>
    obtain ⟨g2, params⟩ := pr
    cases hfiles : generate_forge_files s params with
    | error e => simp [generate_forge, hctx, hdom, hval, hproc, hfiles] at h
    | ok files =>
    simp only [generate_forge, hctx, hdom, hval, hproc, hfiles,
      Except.ok.injEq, Prod.mk.injEq] at h
    obtain ⟨hg, hr⟩ := h
    subst hg
    obtain ⟨dm2, hdm⟩ := process_log_append g g2 s params hproc
    exact ⟨_, hdm, by simp [hdm]⟩

theorem generation_log_grows_by_one_witness :
    ∃ dm,
      ({ generation_log :=
          [{ domain := "skyrim_modding_ecosystem"
             architecture := "two_node"
             dain_enabled := false
             warnings := [] }] } : MetaForgeGenerator).generation_log =
        g0.generation_log ++
          [{ domain := dm
             architecture := "two_node"
             dain_enabled := false
             warnings := [] }] ∧
      ([{ domain := "skyrim_modding_ecosystem"
          architecture := "two_node"
          dain_enabled := false
          warnings := [] }] : List LogEntry).length = g0.generation_log.length + 1 :=
  (generation_log_grows_by_one g0
    { generation_log :=
        [{ domain := "skyrim_modding_ecosystem"
           architecture := "two_node"
           dain_enabled := false
           warnings := [] }] }
    specFull
    { architecture := "two_node"
      memory_limit := some "6G"
      enable_dain_generation := false
      constitutional_requirements := []
      generation_warnings := [] }).1 rfl

/-- C10: whenever `process_diagnostic_input` succeeds, the returned
parameters enable DAIN generation exactly when the selected architecture is
`decoupled_dain`. -/
theorem dain_enabled_iff_dain_architecture (g g' : MetaForgeGenerator) (s : DomainSpec)
    (p : ForgeGenerationParameters)
    (h : process_diagnostic_input g s = .ok (g', p)) :
    p.enable_dain_generation = true ↔ p.architecture = "decoupled_dain" := by
  simp only [process_diagnostic_input] at h
  repeat' split at h
  all_goals simp only [Except.ok.injEq, Prod.mk.injEq, reduceCtorEq] at h
  all_goals obtain ⟨hg, hp⟩ := h
  all_goals subst hp
  all_goals simp

theorem dain_enabled_iff_dain_architecture_witness :
    (({ architecture := "decoupled_dain"
        memory_limit := some "4G"
        enable_dain_generation := true
        constitutional_requirements := []
        generation_warnings := [] } : ForgeGenerationParameters).enable_dain_generation = true ↔
      ({ architecture := "decoupled_dain"
         memory_limit := some "4G"
         enable_dain_generation := true
         constitutional_requirements := []
         generation_warnings := [] } : ForgeGenerationParameters).architecture =
        "decoupled_dain") :=
  dain_enabled_iff_dain_architecture g0
    { generation_log :=
        [{ domain := "skyrim_modding_ecosystem"
           architecture := "decoupled_dain"
           dain_enabled := true
           warnings := [] }] }
    specDedicatedAdvAI
    { architecture := "decoupled_dain"
      memory_limit := some "4G"
      enable_dain_generation := true
      constitutional_requirements := []
      generation_warnings := [] } rfl
